import Mathlib

/-
Verification of the kbd libkfont console-font access core
(src/libkfont/kdfontop.c) against its design specification.

The C file implements a three-tier cascade over the Linux console font
ioctls.  We embed it shallowly: the kernel device is an oracle (a record
of pure functions mapping each ioctl request to either a success payload
or an errno), glyph buffers are total byte functions Nat -> Nat, and each
C function becomes a Lean function that also returns the list of device
calls it issued (the trace), so that claims about which ioctls were or
were not issued, and with which arguments, are directly statable.
-/

namespace Kfont

/-- Linux errno value for ENOSYS. -/
def ENOSYS : Nat := 38

/-- Linux errno value for EINVAL. -/
def EINVAL : Nat := 22

/-- USHRT_MAX on Linux. -/
def USHRT_MAX : Nat := 65535

/-! ## Geometry scanner: font_charheight (kdfontop.c lines 34-47) -/

/-- bytewidth = (width + 7) / 8, from font_charheight. -/
def bytewidth (width : Nat) : Nat := (width + 7) / 8

/-- The two inner loops of font_charheight for a fixed candidate row h:
scan every glyph i < count and every byte column x < bytewidth and test
buf[(32 * i + h - 1) * bytewidth + x] for a nonzero byte. -/
def rowHit (buf : Nat → Nat) (count width h : Nat) : Bool :=
  (List.range count).any fun i =>
    (List.range (bytewidth width)).any fun x =>
      buf ((32 * i + h - 1) * bytewidth width + x) != 0

/-- The outer loop of font_charheight: h counts down from the given bound;
the first h whose row scan hits a nonzero byte is returned, and 0 is
returned when the loop runs out. -/
def charheightLoop (buf : Nat → Nat) (count width : Nat) : Nat → Nat
  | 0 => 0
  | h + 1 =>
    if rowHit buf count width (h + 1) then h + 1
    else charheightLoop buf count width h

/-- font_charheight(buf, count, width): scan rows 32 down to 1. -/
def font_charheight (buf : Nat → Nat) (count width : Nat) : Nat :=
  charheightLoop buf count width 32

/-- Proposition form of rowHit: some glyph has a nonzero byte in
(1-indexed) row h. -/
def RowUsed (buf : Nat → Nat) (count width h : Nat) : Prop :=
  ∃ i, i < count ∧ ∃ x, x < bytewidth width ∧
    buf ((32 * i + h - 1) * bytewidth width + x) ≠ 0

/-! ## Device model for the read direction -/

/-- Result of one ioctl invocation: success with the payload the kernel
wrote back, or failure with the errno it set. -/
inductive IoRes (α : Type) where
  | ok (v : α)
  | err (e : Nat)
deriving DecidableEq

/-- Read-direction device oracle.  kdfontop maps the requested charcount
to the charcount, width and height the kernel reports; giofontx maps the
requested charcount to the reported charcount and charheight; giofont is
the legacy fixed-shape call. -/
structure GDev where
  kdfontop : Nat → IoRes (Nat × Nat × Nat)
  giofontx : Nat → IoRes (Nat × Nat)
  giofont : IoRes Unit

/-- The caller-visible state of a read call: whether the data buffer
pointer is non-null, the in/out count, and the out parameters width and
height (none models a null pointer, some v a pointer whose pointee is
currently v). -/
structure GetArgs where
  buf : Bool
  count : Nat
  width : Option Nat
  height : Option Nat
deriving DecidableEq

/-- One issued read-direction ioctl, with the charcount it carried. -/
inductive GetCall where
  | kdfontop (charcount : Nat)
  | giofontx (charcount : Nat)
  | giofont
deriving DecidableEq

/-- get_font_kdfontop (lines 49-80): Tier 1 read probe.  Returns the C
int result (0 success, 1 not supported, -1 hard error), the updated
out-parameters, and the device calls issued. -/
def get_font_kdfontop (dev : GDev) (a : GetArgs) :
    Int × GetArgs × List GetCall :=
  match dev.kdfontop a.count with
  | .ok (cc, w, h) =>
    (0, { a with
          count := cc,
          height := a.height.map (fun _ => h),
          width := a.width.map (fun _ => w) }, [.kdfontop a.count])
  | .err e =>
    if e ≠ ENOSYS ∧ e ≠ EINVAL then (-1, a, [.kdfontop a.count])
    else (1, a, [.kdfontop a.count])

/-- get_font_giofontx (lines 82-116): Tier 2 read probe.  Rejects counts
above USHRT_MAX before touching the device; on device success reports the
device count and height and forces width to 8. -/
def get_font_giofontx (dev : GDev) (a : GetArgs) :
    Int × GetArgs × List GetCall :=
  if a.count > USHRT_MAX then (-1, a, [])
  else
    match dev.giofontx a.count with
    | .ok (cc, ch) =>
      (0, { a with
            count := cc,
            height := a.height.map (fun _ => ch),
            width := a.width.map (fun _ => 8) }, [.giofontx a.count])
    | .err e =>
      if e ≠ ENOSYS ∧ e ≠ EINVAL then (-1, a, [.giofontx a.count])
      else (1, a, [.giofontx a.count])

/-- get_font_giofont (lines 118-148): Tier 3 read probe.  Demands count
= 256 and a non-null buffer before touching the device; on success forces
count 256, height 0, width 8.  Any failure is -1. -/
def get_font_giofont (dev : GDev) (a : GetArgs) :
    Int × GetArgs × List GetCall :=
  if a.count ≠ 256 then (-1, a, [])
  else if !a.buf then (-1, a, [])
  else
    match dev.giofont with
    | .ok _ =>
      (0, { a with
            count := 256,
            height := a.height.map (fun _ => 0),
            width := a.width.map (fun _ => 8) }, [.giofont])
    | .err _ => (-1, a, [.giofont])

/-- kfont_get_font (lines 155-175): the read orchestrator.  Tier 1, then
on result 1 Tier 2, then on result 1 Tier 3. -/
def kfont_get_font (dev : GDev) (a : GetArgs) :
    Int × GetArgs × List GetCall :=
  match get_font_kdfontop dev a with
  | (r1, a1, t1) =>
    if r1 ≤ 0 then (r1, a1, t1)
    else
      match get_font_giofontx dev a1 with
      | (r2, a2, t2) =>
        if r2 ≤ 0 then (r2, a2, t1 ++ t2)
        else
          match get_font_giofont dev a2 with
          | (r3, a3, t3) => (r3, a3, t1 ++ t2 ++ t3)

/-- kfont_get_fontsize (lines 177-184): query with count 0 and a null
buffer; on success return the reported count, otherwise 256. -/
def kfont_get_fontsize (dev : GDev) : Nat :=
  match kfont_get_font dev ⟨false, 0, none, none⟩ with
  | (r, a, _) => if r = 0 then a.count else 256

/-! ## Device model for the write direction -/

/-- Write-direction device oracle.  Each setter receives the request
arguments (including the glyph data the kernel would read) and returns
none on success or some errno on failure.  mallocOk models whether the
scratch allocation in the retry step succeeds. -/
structure PDev where
  kdfontop_set : Nat → Nat → Nat → (Nat → Nat) → Option Nat
  piofontx_set : Nat → Nat → (Nat → Nat) → Option Nat
  piofont_set : (Nat → Nat) → Option Nat
  mallocOk : Bool

/-- One event of a write call: an issued ioctl with its arguments and
data, or the allocation / release of the retry scratch buffer. -/
inductive PutCall where
  | kdfontop (charcount width height : Nat) (data : Nat → Nat)
  | piofontx (charcount charheight : Nat) (data : Nat → Nat)
  | piofont (data : Nat → Nat)
  | alloc (size : Nat)
  | release

/-- Whether a write event is a Tier 1 event (a KDFONTOP set call or the
scratch allocation belonging to the Tier 1 retry). -/
def isTier1Ev : PutCall → Bool
  | .kdfontop _ _ _ _ => true
  | .alloc _ => true
  | _ => false

/-- The scratch buffer built by the retry step (lines 221-229): memset to
zero then memcpy of the first 32 * count bytes of the original buffer. -/
def scratch (buf : Nat → Nat) (count : Nat) : Nat → Nat :=
  fun n => if n < 32 * count then buf n else 0

/-- The tail of kfont_put_font after the Tier 1 attempts (lines 241-263):
PIO_FONTX with charcount and charheight reduced mod 65536 by the unsigned
short struct fields, then on NotSupported PIO_FONT. -/
def put_tier23 (dev : PDev) (buf : Nat → Nat) (count height : Nat)
    (t : List PutCall) : Int × List PutCall :=
  let t2 := t ++ [PutCall.piofontx (count % 65536) (height % 65536) buf]
  match dev.piofontx_set (count % 65536) (height % 65536) buf with
  | none => (0, t2)
  | some e2 =>
    if e2 ≠ ENOSYS ∧ e2 ≠ EINVAL then (-1, t2)
    else
      match dev.piofont_set buf with
      | none => (0, t2 ++ [PutCall.piofont buf])
      | some _ => (-1, t2 ++ [PutCall.piofont buf])

/-- kfont_put_font (lines 186-264): resolve width 0 to 8 and height 0 via
font_charheight, attempt KDFONTOP; on failure abort unless width is 8 and
errno is ENOSYS or EINVAL; if errno is EINVAL and count is neither 256
nor at least 512, retry KDFONTOP once with count rounded up to 256 or 512
and a zero-padded scratch copy of the buffer, released right after the
retry; otherwise or on retry failure fall through to PIO_FONTX and
PIO_FONT. -/
def kfont_put_font (dev : PDev) (buf : Nat → Nat)
    (count width0 height0 : Nat) : Int × List PutCall :=
  let width := if width0 = 0 then 8 else width0
  let height := if height0 = 0 then font_charheight buf count width
                else height0
  let t0 := [PutCall.kdfontop count width height buf]
  match dev.kdfontop_set count width height buf with
  | none => (0, t0)
  | some e1 =>
    if width ≠ 8 ∨ (e1 ≠ ENOSYS ∧ e1 ≠ EINVAL) then (-1, t0)
    else if e1 = EINVAL ∧ width = 8 ∧ count ≠ 256 ∧ count < 512 then
      let ct := if count > 256 then 512 else 256
      if dev.mallocOk = false then (-1, t0)
      else
        let mybuf := scratch buf count
        let t1 := t0 ++ [PutCall.alloc (32 * ct),
                         PutCall.kdfontop ct width height mybuf,
                         PutCall.release]
        match dev.kdfontop_set ct width height mybuf with
        | none => (0, t1)
        | some _ => put_tier23 dev buf count height t1
    else put_tier23 dev buf count height t0

/-! ## Concrete devices and buffers used to evaluate the theorems -/

/-- An all-zero glyph buffer. -/
def buf0 : Nat → Nat := fun _ => 0

/-- A buffer whose every byte is 7. -/
def buf7 : Nat → Nat := fun _ => 7

/-- Read device whose first two tiers fail with ENOSYS and whose legacy
tier would succeed. -/
def gdevC5 : GDev := ⟨fun _ => IoRes.err 38, fun _ => IoRes.err 38, IoRes.ok ()⟩

/-- Read device where Tier 1 is not supported and Tier 2 succeeds with
count 128 and height 14. -/
def gdevC3 : GDev :=
  ⟨fun _ => IoRes.err 38, fun _ => IoRes.ok (128, 14), IoRes.err 1⟩

/-- Read device failing every tier with EACCES-like errno 13. -/
def gdevC4 : GDev := ⟨fun _ => IoRes.err 13, fun _ => IoRes.err 13, IoRes.ok ()⟩

/-- Read device whose Tier 1 succeeds with count 42, width 8, height 16. -/
def gdevC7 : GDev :=
  ⟨fun _ => IoRes.ok (42, 8, 16), fun _ => IoRes.err 38, IoRes.ok ()⟩

/-- Read device whose Tier 1 fails hard with errno 13. -/
def gdevC9 : GDev := ⟨fun _ => IoRes.err 13, fun _ => IoRes.err 38, IoRes.ok ()⟩

/-- Read device supporting only the legacy tier: Tier 1 fails ENOSYS,
Tier 2 fails EINVAL, Tier 3 would succeed. -/
def gdevC10 : GDev :=
  ⟨fun _ => IoRes.err 38, fun _ => IoRes.err 22, IoRes.ok ()⟩

/-- Write device whose KDFONTOP always fails with ENOSYS and whose lower
tiers succeed. -/
def pdevC1 : PDev :=
  ⟨fun _ _ _ _ => some 38, fun _ _ _ => none, fun _ => none, true⟩

/-- Write device whose KDFONTOP fails with EINVAL at charcount 100 and
succeeds at any other charcount. -/
def pdevC1w : PDev :=
  ⟨fun c _ _ _ => if c = 100 then some 22 else none,
   fun _ _ _ => none, fun _ => none, true⟩

/-- Write device whose KDFONTOP always fails with ENOSYS and whose
PIO_FONTX succeeds. -/
def pdevC6 : PDev :=
  ⟨fun _ _ _ _ => some 38, fun _ _ _ => none, fun _ => none, true⟩

/-- Write device whose KDFONTOP always fails with errno 13. -/
def pdevC8 : PDev :=
  ⟨fun _ _ _ _ => some 13, fun _ _ _ => none, fun _ => none, true⟩

/-! ## Lemmas about the geometry scanner -/

/-- rowHit decides RowUsed. -/
theorem rowHit_iff (buf : Nat → Nat) (count width h : Nat) :
    rowHit buf count width h = true ↔ RowUsed buf count width h := by
  simp [rowHit, RowUsed, List.any_eq_true, List.mem_range]

/-- Characterization of the descending search loop: either no row in
1..h hits and the result is 0, or the result is the greatest row in 1..h
that hits. -/
theorem charheightLoop_spec (buf : Nat → Nat) (count width : Nat) :
    ∀ h : Nat,
      (charheightLoop buf count width h = 0 ∧
        ∀ j, 1 ≤ j → j ≤ h → rowHit buf count width j = false)
    ∨ (1 ≤ charheightLoop buf count width h ∧
        charheightLoop buf count width h ≤ h ∧
        rowHit buf count width (charheightLoop buf count width h) = true ∧
        ∀ j, charheightLoop buf count width h < j → j ≤ h →
          rowHit buf count width j = false) := by
  intro h
  induction h with
  | zero =>
    left
    exact ⟨rfl, fun j hj1 hj0 => absurd (Nat.le_trans hj1 hj0) (by omega)⟩
  | succ h ih =>
    by_cases hr : rowHit buf count width (h + 1) = true
    · right
      have hl : charheightLoop buf count width (h + 1) = h + 1 := by
        simp [charheightLoop, hr]
      refine ⟨by omega, by omega, by rw [hl]; exact hr, ?_⟩
      intro j hj1 hj2
      rw [hl] at hj1
      omega
    · have hrf : rowHit buf count width (h + 1) = false := by
        simpa using hr
      have hl : charheightLoop buf count width (h + 1)
          = charheightLoop buf count width h := by
        simp [charheightLoop, hrf]
      rcases ih with ⟨h0, hall⟩ | ⟨h1, h2, h3, h4⟩
      · left
        refine ⟨by rw [hl]; exact h0, ?_⟩
        intro j hj1 hj2
        rcases Nat.lt_or_ge j (h + 1) with hj | hj
        · exact hall j hj1 (by omega)
        · have : j = h + 1 := by omega
          rw [this]; exact hrf
      · right
        rw [hl]
        refine ⟨h1, by omega, h3, ?_⟩
        intro j hj1 hj2
        rcases Nat.lt_or_ge j (h + 1) with hj | hj
        · exact h4 j hj1 (by omega)
        · have : j = h + 1 := by omega
          rw [this]; exact hrf

/-- Every hitting row in 1..32 is bounded by font_charheight. -/
theorem font_charheight_max (buf : Nat → Nat) (count width : Nat)
    (h : Nat) (h1 : 1 ≤ h) (h32 : h ≤ 32)
    (hu : RowUsed buf count width h) :
    h ≤ font_charheight buf count width := by
  rcases charheightLoop_spec buf count width 32 with ⟨_, hall⟩ | ⟨_, _, _, h4⟩
  · exact absurd ((rowHit_iff buf count width h).mpr hu)
      (by rw [hall h h1 h32]; simp)
  · by_contra hlt
    exact absurd ((rowHit_iff buf count width h).mpr hu)
      (by rw [h4 h (by unfold font_charheight at hlt; omega) h32]; simp)

/-- C2: for count >= 1 and width >= 1, font_charheight returns the
largest 1-indexed row h in 1..32 in which some glyph has a nonzero byte,
and 0 when every scanned byte is zero; in particular, when exactly one
byte of the scanned region is nonzero and it lies in 0-indexed row r of
some glyph, the result is r + 1. -/
theorem font_charheight_correct (buf : Nat → Nat) (count width : Nat)
    (hc : 1 ≤ count) (hw : 1 ≤ width) :
    (∀ h, 1 ≤ h → h ≤ 32 → RowUsed buf count width h →
      h ≤ font_charheight buf count width)
    ∧ (font_charheight buf count width = 0 ∨
        (1 ≤ font_charheight buf count width ∧
          font_charheight buf count width ≤ 32 ∧
          RowUsed buf count width (font_charheight buf count width)))
    ∧ ((∀ h, 1 ≤ h → h ≤ 32 → ¬ RowUsed buf count width h) →
        font_charheight buf count width = 0)
    ∧ (∀ k r x0, k < count → r < 32 → x0 < bytewidth width →
        buf ((32 * k + r) * bytewidth width + x0) ≠ 0 →
        (∀ n, n < 32 * count * bytewidth width →
          n ≠ (32 * k + r) * bytewidth width + x0 → buf n = 0) →
        font_charheight buf count width = r + 1) := by
  refine ⟨fun h h1 h32 hu => font_charheight_max buf count width h h1 h32 hu,
    ?_, ?_, ?_⟩
  · rcases charheightLoop_spec buf count width 32 with ⟨h0, _⟩ | ⟨p1, p2, p3, _⟩
    · exact Or.inl h0
    · exact Or.inr ⟨p1, p2, (rowHit_iff buf count width _).mp p3⟩
  · intro hall
    rcases charheightLoop_spec buf count width 32 with ⟨h0, _⟩ | ⟨p1, p2, p3, _⟩
    · exact h0
    · exact absurd ((rowHit_iff buf count width _).mp p3) (hall _ p1 p2)
  · intro k r x0 hk hr hx hnz hz
    have hbw : 1 ≤ bytewidth width := by unfold bytewidth; omega
    have stepB : ∀ h, r + 1 < h → h ≤ 32 →
        rowHit buf count width h = false := by
      intro h hr1 h32
      rw [← Bool.not_eq_true, rowHit_iff]
      rintro ⟨i, hi, x, hxx, hnz2⟩
      have hlt : (32 * i + h - 1) * bytewidth width + x
          < 32 * count * bytewidth width := by
        calc (32 * i + h - 1) * bytewidth width + x
            < (32 * i + h - 1) * bytewidth width + bytewidth width := by omega
          _ = (32 * i + h - 1 + 1) * bytewidth width := by
              rw [Nat.add_mul, Nat.one_mul]
          _ ≤ 32 * count * bytewidth width :=
              mul_le_mul_right' (by omega) _
      have hne : (32 * i + h - 1) * bytewidth width + x
          ≠ (32 * k + r) * bytewidth width + x0 := by
        intro heq
        have e1 : ((32 * i + h - 1) * bytewidth width + x) / bytewidth width
            = 32 * i + h - 1 := by
          rw [Nat.mul_comm, Nat.mul_add_div hbw, Nat.div_eq_of_lt hxx]; omega
        have e2 : ((32 * k + r) * bytewidth width + x0) / bytewidth width
            = 32 * k + r := by
          rw [Nat.mul_comm, Nat.mul_add_div hbw, Nat.div_eq_of_lt hx]; omega
        rw [heq, e2] at e1
        omega
      exact hnz2 (hz _ hlt hne)
    have hA : RowUsed buf count width (r + 1) := by
      refine ⟨k, hk, x0, hx, ?_⟩
      have hsame : 32 * k + (r + 1) - 1 = 32 * k + r := by omega
      rw [hsame]; exact hnz
    have hge : r + 1 ≤ font_charheight buf count width :=
      font_charheight_max buf count width (r + 1) (by omega) (by omega) hA
    rcases charheightLoop_spec buf count width 32 with ⟨h0, _⟩ | ⟨p1, p2, p3, _⟩
    · unfold font_charheight at hge ⊢; omega
    · have hle32 : font_charheight buf count width ≤ r + 1 := by
        by_contra hcon
        have hf := stepB (charheightLoop buf count width 32)
          (by unfold font_charheight at hcon; omega) p2
        rw [p3] at hf
        simp at hf
      omega

/-- C2 witness: count 1, width 8, single nonzero byte in 0-indexed row 5
of glyph 0; font_charheight is 6. -/
theorem font_charheight_correct_witness :
    (1 ≤ 1 ∧ 1 ≤ 8) ∧
    ((∀ h, 1 ≤ h → h ≤ 32 →
        RowUsed (fun n => if n = 5 then 1 else 0) 1 8 h →
        h ≤ font_charheight (fun n => if n = 5 then 1 else 0) 1 8)
    ∧ (font_charheight (fun n => if n = 5 then 1 else 0) 1 8 = 0 ∨
        (1 ≤ font_charheight (fun n => if n = 5 then 1 else 0) 1 8 ∧
          font_charheight (fun n => if n = 5 then 1 else 0) 1 8 ≤ 32 ∧
          RowUsed (fun n => if n = 5 then 1 else 0) 1 8
            (font_charheight (fun n => if n = 5 then 1 else 0) 1 8)))
    ∧ ((∀ h, 1 ≤ h → h ≤ 32 →
          ¬ RowUsed (fun n => if n = 5 then 1 else 0) 1 8 h) →
        font_charheight (fun n => if n = 5 then 1 else 0) 1 8 = 0)
    ∧ (∀ k r x0, k < 1 → r < 32 → x0 < bytewidth 8 →
        (fun n : Nat => if n = 5 then 1 else 0)
          ((32 * k + r) * bytewidth 8 + x0) ≠ 0 →
        (∀ n, n < 32 * 1 * bytewidth 8 →
          n ≠ (32 * k + r) * bytewidth 8 + x0 →
          (fun n : Nat => if n = 5 then 1 else 0) n = 0) →
        font_charheight (fun n => if n = 5 then 1 else 0) 1 8 = r + 1)) :=
  ⟨⟨by decide, by decide⟩,
    font_charheight_correct (fun n => if n = 5 then 1 else 0) 1 8
      (by decide) (by decide)⟩

/-! ## Lemmas about the read probes -/

/-- A failing Tier 1 read probe leaves the caller arguments unchanged. -/
theorem kdfontop_fail_args (dev : GDev) (a : GetArgs)
    (h : (get_font_kdfontop dev a).1 ≠ 0) :
    (get_font_kdfontop dev a).2.1 = a := by
  unfold get_font_kdfontop at *
  rcases hd : dev.kdfontop a.count with ⟨cc, w, hh⟩ | e
  · rw [hd] at h; simp at h
  · by_cases hc : e ≠ ENOSYS ∧ e ≠ EINVAL <;> simp [hc]

/-- A failing Tier 2 read probe leaves the caller arguments unchanged. -/
theorem giofontx_fail_args (dev : GDev) (a : GetArgs)
    (h : (get_font_giofontx dev a).1 ≠ 0) :
    (get_font_giofontx dev a).2.1 = a := by
  unfold get_font_giofontx at *
  by_cases hm : a.count > USHRT_MAX
  · simp [hm]
  · rw [if_neg hm] at h ⊢
    rcases hd : dev.giofontx a.count with ⟨cc, ch⟩ | e
    · rw [hd] at h; simp at h
    · by_cases hc : e ≠ ENOSYS ∧ e ≠ EINVAL <;> simp [hc]

/-- A failing Tier 3 read probe leaves the caller arguments unchanged. -/
theorem giofont_fail_args (dev : GDev) (a : GetArgs)
    (h : (get_font_giofont dev a).1 ≠ 0) :
    (get_font_giofont dev a).2.1 = a := by
  unfold get_font_giofont at *
  by_cases h256 : a.count ≠ 256
  · simp [h256]
  · rw [if_neg h256] at h ⊢
    by_cases hb : a.buf
    · simp only [hb, Bool.not_true, Bool.false_eq_true, if_false] at h ⊢
      rcases hd : dev.giofont with u | e
      · rw [hd] at h; simp at h
      · simp
    · simp [hb] at h ⊢

/-- The Tier 1 read probe returns 0, 1 or -1, and returns 1 exactly when
the device fails with ENOSYS or EINVAL. -/
theorem kdfontop_result_cases (dev : GDev) (a : GetArgs) :
    (get_font_kdfontop dev a).1 = 0 ∨ (get_font_kdfontop dev a).1 = 1 ∨
      (get_font_kdfontop dev a).1 = -1 := by
  unfold get_font_kdfontop
  rcases hd : dev.kdfontop a.count with ⟨cc, w, hh⟩ | e
  · simp
  · by_cases hc : e ≠ ENOSYS ∧ e ≠ EINVAL <;> simp [hc]

/-- The Tier 2 read probe returns 0, 1 or -1. -/
theorem giofontx_result_cases (dev : GDev) (a : GetArgs) :
    (get_font_giofontx dev a).1 = 0 ∨ (get_font_giofontx dev a).1 = 1 ∨
      (get_font_giofontx dev a).1 = -1 := by
  unfold get_font_giofontx
  by_cases hm : a.count > USHRT_MAX
  · simp [hm]
  · rw [if_neg hm]
    rcases hd : dev.giofontx a.count with ⟨cc, ch⟩ | e
    · simp
    · by_cases hc : e ≠ ENOSYS ∧ e ≠ EINVAL <;> simp [hc]

/-- The Tier 1 read probe always issues exactly one KDFONTOP call. -/
theorem kdfontop_trace (dev : GDev) (a : GetArgs) :
    (get_font_kdfontop dev a).2.2 = [GetCall.kdfontop a.count] := by
  unfold get_font_kdfontop
  rcases hd : dev.kdfontop a.count with ⟨cc, w, hh⟩ | e
  · simp
  · by_cases hc : e ≠ ENOSYS ∧ e ≠ EINVAL <;> simp [hc]

/-- The Tier 2 read probe never issues a GIO_FONT call. -/
theorem giofontx_trace_no_giofont (dev : GDev) (a : GetArgs) :
    GetCall.giofont ∉ (get_font_giofontx dev a).2.2 := by
  unfold get_font_giofontx
  by_cases hm : a.count > USHRT_MAX
  · simp [hm]
  · rw [if_neg hm]
    rcases hd : dev.giofontx a.count with ⟨cc, ch⟩ | e
    · simp
    · by_cases hc : e ≠ ENOSYS ∧ e ≠ EINVAL <;> simp [hc]

/-- When Tier 1 reports success or a hard error the orchestrator returns
its result unchanged. -/
theorem kfont_get_font_step1 (dev : GDev) (a : GetArgs)
    (h : (get_font_kdfontop dev a).1 ≤ 0) :
    kfont_get_font dev a = get_font_kdfontop dev a := by
  unfold kfont_get_font
  rcases h1 : get_font_kdfontop dev a with ⟨r1, a1, t1⟩
  rw [h1] at h
  simp only at h
  simp [h]

/-- When Tier 1 reports NotSupported and Tier 2 does not, the
orchestrator returns the Tier 2 result with the combined trace. -/
theorem kfont_get_font_step2 (dev : GDev) (a : GetArgs)
    (h1 : (get_font_kdfontop dev a).1 = 1)
    (h2 : (get_font_giofontx dev a).1 ≤ 0) :
    kfont_get_font dev a = ((get_font_giofontx dev a).1,
      (get_font_giofontx dev a).2.1,
      (get_font_kdfontop dev a).2.2 ++ (get_font_giofontx dev a).2.2) := by
  have ha1 : (get_font_kdfontop dev a).2.1 = a :=
    kdfontop_fail_args dev a (by omega)
  unfold kfont_get_font
  rcases hk : get_font_kdfontop dev a with ⟨r1, a1, t1⟩
  rw [hk] at h1 ha1
  simp only at h1 ha1
  subst h1
  rw [ha1]
  rcases hg : get_font_giofontx dev a with ⟨r2, a2, t2⟩
  rw [hg] at h2
  simp only at h2
  simp [hg, h2]

/-- When Tier 1 and Tier 2 both report NotSupported the orchestrator
returns the Tier 3 result with the combined trace. -/
theorem kfont_get_font_step3 (dev : GDev) (a : GetArgs)
    (h1 : (get_font_kdfontop dev a).1 = 1)
    (h2 : (get_font_giofontx dev a).1 = 1) :
    kfont_get_font dev a = ((get_font_giofont dev a).1,
      (get_font_giofont dev a).2.1,
      (get_font_kdfontop dev a).2.2 ++ (get_font_giofontx dev a).2.2
        ++ (get_font_giofont dev a).2.2) := by
  have ha1 : (get_font_kdfontop dev a).2.1 = a :=
    kdfontop_fail_args dev a (by omega)
  have ha2 : (get_font_giofontx dev a).2.1 = a :=
    giofontx_fail_args dev a (by omega)
  unfold kfont_get_font
  rcases hk : get_font_kdfontop dev a with ⟨r1, a1, t1⟩
  rw [hk] at h1 ha1
  simp only at h1 ha1
  subst h1
  rw [ha1]
  rcases hg : get_font_giofontx dev a with ⟨r2, a2, t2⟩
  rw [hg] at h2 ha2
  simp only at h2 ha2
  subst h2
  simp [hg, ha2]

/-- C3: the read orchestrator invokes Tier 1 first and returns its result
immediately on success or hard error; only on NotSupported does it invoke
Tier 2, with the same rule; only on Tier 2 NotSupported does it invoke
Tier 3, whose outcome is returned unconditionally; and no GIO_FONT call
is issued when Tier 2 succeeds. -/
theorem kfont_get_font_cascade (dev : GDev) (a : GetArgs) :
    ((get_font_kdfontop dev a).1 ≤ 0 →
      kfont_get_font dev a = get_font_kdfontop dev a)
    ∧ ((get_font_kdfontop dev a).1 = 1 → (get_font_giofontx dev a).1 ≤ 0 →
      kfont_get_font dev a = ((get_font_giofontx dev a).1,
        (get_font_giofontx dev a).2.1,
        (get_font_kdfontop dev a).2.2 ++ (get_font_giofontx dev a).2.2))
    ∧ ((get_font_kdfontop dev a).1 = 1 → (get_font_giofontx dev a).1 = 1 →
      kfont_get_font dev a = ((get_font_giofont dev a).1,
        (get_font_giofont dev a).2.1,
        (get_font_kdfontop dev a).2.2 ++ (get_font_giofontx dev a).2.2
          ++ (get_font_giofont dev a).2.2))
    ∧ ((get_font_giofontx dev a).1 = 0 →
      GetCall.giofont ∉ (kfont_get_font dev a).2.2) := by
  refine ⟨kfont_get_font_step1 dev a, kfont_get_font_step2 dev a,
    kfont_get_font_step3 dev a, ?_⟩
  intro h2
  rcases kdfontop_result_cases dev a with hr1 | hr1 | hr1
  · rw [kfont_get_font_step1 dev a (by omega), kdfontop_trace]
    simp
  · rw [kfont_get_font_step2 dev a hr1 (by omega)]
    have hnog := giofontx_trace_no_giofont dev a
    rw [kdfontop_trace]
    simp only [List.mem_append, List.mem_singleton]
    rintro (hgl | hgl)
    · exact GetCall.noConfusion hgl
    · exact hnog hgl
  · rw [kfont_get_font_step1 dev a (by omega), kdfontop_trace]
    simp

/-- C3 witness: Tier 1 NotSupported (ENOSYS), Tier 2 success with count
128 and height 14; the orchestrator returns the Tier 2 descriptor and
issues no GIO_FONT call. -/
theorem kfont_get_font_cascade_witness :
    kfont_get_font gdevC3 ⟨true, 0, some 0, some 0⟩
      = ((get_font_giofontx gdevC3 ⟨true, 0, some 0, some 0⟩).1,
        (get_font_giofontx gdevC3 ⟨true, 0, some 0, some 0⟩).2.1,
        (get_font_kdfontop gdevC3 ⟨true, 0, some 0, some 0⟩).2.2
          ++ (get_font_giofontx gdevC3 ⟨true, 0, some 0, some 0⟩).2.2)
    ∧ GetCall.giofont ∉ (kfont_get_font gdevC3 ⟨true, 0, some 0, some 0⟩).2.2 :=
  ⟨(kfont_get_font_cascade gdevC3 ⟨true, 0, some 0, some 0⟩).2.1
      (by decide) (by decide),
    (kfont_get_font_cascade gdevC3 ⟨true, 0, some 0, some 0⟩).2.2.2
      (by decide)⟩

/-- C4: for Tier 1 and Tier 2 read probes, a device failure is
classified as NotSupported (1) exactly when the errno is ENOSYS or
EINVAL, and as a hard error (-1) for every other errno. -/
theorem probe_errno_classification (dev : GDev) (a : GetArgs) (e : Nat) :
    (dev.kdfontop a.count = IoRes.err e →
      (get_font_kdfontop dev a).1
        = if e = ENOSYS ∨ e = EINVAL then 1 else -1)
    ∧ (a.count ≤ USHRT_MAX → dev.giofontx a.count = IoRes.err e →
      (get_font_giofontx dev a).1
        = if e = ENOSYS ∨ e = EINVAL then 1 else -1) := by
  constructor
  · intro hd
    unfold get_font_kdfontop
    rw [hd]
    by_cases hc : e = ENOSYS ∨ e = EINVAL
    · rw [if_pos hc]
      have hn : ¬(e ≠ ENOSYS ∧ e ≠ EINVAL) := by tauto
      simp [hn]
    · rw [if_neg hc]
      have hn : e ≠ ENOSYS ∧ e ≠ EINVAL := by tauto
      simp [hn]
  · intro hm hd
    unfold get_font_giofontx
    rw [if_neg (by omega : ¬ a.count > USHRT_MAX), hd]
    by_cases hc : e = ENOSYS ∨ e = EINVAL
    · rw [if_pos hc]
      have hn : ¬(e ≠ ENOSYS ∧ e ≠ EINVAL) := by tauto
      simp [hn]
    · rw [if_neg hc]
      have hn : e ≠ ENOSYS ∧ e ≠ EINVAL := by tauto
      simp [hn]

/-- C4 witness: errno 13 is neither ENOSYS nor EINVAL; both probes
classify it as a hard error. -/
theorem probe_errno_classification_witness :
    ((0:Nat) ≤ USHRT_MAX)
    ∧ (get_font_kdfontop gdevC4 ⟨false, 0, none, none⟩).1
        = (if (13:Nat) = ENOSYS ∨ (13:Nat) = EINVAL then 1 else -1)
    ∧ (get_font_giofontx gdevC4 ⟨false, 0, none, none⟩).1
        = (if (13:Nat) = ENOSYS ∨ (13:Nat) = EINVAL then 1 else -1) :=
  ⟨by decide,
    (probe_errno_classification gdevC4 ⟨false, 0, none, none⟩ 13).1 rfl,
    (probe_errno_classification gdevC4 ⟨false, 0, none, none⟩ 13).2
      (by decide) rfl⟩

/-- C5 counterexample: the Tier 3 read probe, invoked with count 256 and
an absent buffer on a device whose GIO_FONT call would succeed, reports a
hard error without issuing any device call; so it is false that every
read tier probe tolerates an absent buffer. -/
theorem giofont_nullbuf_cex :
    gdevC5.giofont = IoRes.ok ()
    ∧ get_font_giofont gdevC5 ⟨false, 256, none, none⟩
        = (-1, ⟨false, 256, none, none⟩, []) :=
  ⟨rfl, rfl⟩

/-- C5 amended: Tiers 1 and 2 tolerate an absent buffer (outcome,
reported descriptor fields and issued device calls are identical to the
buffer-present call), but the Tier 3 probe reports a hard error whenever
the buffer is absent, without touching the device. -/
theorem probes_nullbuf (dev : GDev) (c : Nat) (w h : Option Nat) :
    (get_font_kdfontop dev ⟨false, c, w, h⟩
      = ((get_font_kdfontop dev ⟨true, c, w, h⟩).1,
        { (get_font_kdfontop dev ⟨true, c, w, h⟩).2.1 with buf := false },
        (get_font_kdfontop dev ⟨true, c, w, h⟩).2.2))
    ∧ (get_font_giofontx dev ⟨false, c, w, h⟩
      = ((get_font_giofontx dev ⟨true, c, w, h⟩).1,
        { (get_font_giofontx dev ⟨true, c, w, h⟩).2.1 with buf := false },
        (get_font_giofontx dev ⟨true, c, w, h⟩).2.2))
    ∧ (∀ a : GetArgs, a.buf = false →
        get_font_giofont dev a = (-1, a, [])) := by
  refine ⟨?_, ?_, ?_⟩
  · rcases hd : dev.kdfontop c with ⟨cc, ww, hh⟩ | e
    · simp [get_font_kdfontop, hd]
    · by_cases hc : e ≠ ENOSYS ∧ e ≠ EINVAL <;>
        simp [get_font_kdfontop, hd, hc]
  · by_cases hm : c > USHRT_MAX
    · simp [get_font_giofontx, hm]
    · rcases hd : dev.giofontx c with ⟨cc, ch⟩ | e
      · simp [get_font_giofontx, hm, hd]
      · by_cases hc : e ≠ ENOSYS ∧ e ≠ EINVAL <;>
          simp [get_font_giofontx, hm, hd, hc]
  · intro a ha
    unfold get_font_giofont
    by_cases h256 : a.count ≠ 256
    · simp [h256]
    · simp [h256, ha]

/-- C5 amended witness: on a device whose GIO_FONT would succeed, the
Tier 3 probe still fails when the buffer is absent. -/
theorem probes_nullbuf_witness :
    get_font_giofont gdevC5 ⟨false, 256, none, none⟩
      = (-1, ⟨false, 256, none, none⟩, []) :=
  (probes_nullbuf gdevC5 256 none none).2.2 ⟨false, 256, none, none⟩ rfl

/-- C7: kfont_get_fontsize returns the count reported by a successful
kfont_get_font query issued with count 0 and a null buffer, and returns
exactly 256 whenever that query fails for any reason; its return type is
a plain count, never an error. -/
theorem kfont_get_fontsize_spec (dev : GDev) :
    ((kfont_get_font dev ⟨false, 0, none, none⟩).1 = 0 →
      kfont_get_fontsize dev
        = (kfont_get_font dev ⟨false, 0, none, none⟩).2.1.count)
    ∧ ((kfont_get_font dev ⟨false, 0, none, none⟩).1 ≠ 0 →
      kfont_get_fontsize dev = 256) := by
  unfold kfont_get_fontsize
  rcases hq : kfont_get_font dev ⟨false, 0, none, none⟩ with ⟨r, b, t⟩
  constructor
  · intro hr
    simp only at hr ⊢
    simp [hr]
  · intro hr
    simp only at hr ⊢
    simp [hr]

/-- C7 witness: a device whose Tier 1 reports count 42 makes
kfont_get_fontsize return the reported count. -/
theorem kfont_get_fontsize_spec_witness :
    (kfont_get_font gdevC7 ⟨false, 0, none, none⟩).1 = 0
    ∧ kfont_get_fontsize gdevC7
        = (kfont_get_font gdevC7 ⟨false, 0, none, none⟩).2.1.count :=
  ⟨by decide, (kfont_get_fontsize_spec gdevC7).1 (by decide)⟩

/-- C9: a failed read leaves the caller descriptor untouched: each tier
probe returns the arguments unchanged on every nonzero result, and the
read orchestrator returns them unchanged whenever it reports -1. -/
theorem get_font_fail_preserves_args (dev : GDev) (a : GetArgs) :
    ((get_font_kdfontop dev a).1 ≠ 0 → (get_font_kdfontop dev a).2.1 = a)
    ∧ ((get_font_giofontx dev a).1 ≠ 0 → (get_font_giofontx dev a).2.1 = a)
    ∧ ((get_font_giofont dev a).1 ≠ 0 → (get_font_giofont dev a).2.1 = a)
    ∧ ((kfont_get_font dev a).1 = -1 → (kfont_get_font dev a).2.1 = a) := by
  refine ⟨kdfontop_fail_args dev a, giofontx_fail_args dev a,
    giofont_fail_args dev a, ?_⟩
  intro hr
  rcases kdfontop_result_cases dev a with h1 | h1 | h1
  · rw [kfont_get_font_step1 dev a (by omega)] at hr
    rw [h1] at hr
    exact absurd hr (by decide)
  · rcases giofontx_result_cases dev a with h2 | h2 | h2
    · rw [kfont_get_font_step2 dev a h1 (by omega)] at hr
      simp only at hr
      rw [h2] at hr
      exact absurd hr (by decide)
    · rw [kfont_get_font_step3 dev a h1 h2]
      simp only
      exact giofont_fail_args dev a (by
        rw [kfont_get_font_step3 dev a h1 h2] at hr
        simp only at hr
        omega)
    · rw [kfont_get_font_step2 dev a h1 (by omega)]
      simp only
      exact giofontx_fail_args dev a (by omega)
  · rw [kfont_get_font_step1 dev a (by omega)]
    exact kdfontop_fail_args dev a (by omega)

/-- C9 witness: a device whose Tier 1 fails hard leaves the descriptor
passed to kfont_get_font unchanged. -/
theorem get_font_fail_preserves_args_witness :
    (kfont_get_font gdevC9 ⟨true, 5, some 1, some 2⟩).1 = -1
    ∧ (kfont_get_font gdevC9 ⟨true, 5, some 1, some 2⟩).2.1
        = ⟨true, 5, some 1, some 2⟩ :=
  ⟨by decide,
    (get_font_fail_preserves_args gdevC9 ⟨true, 5, some 1, some 2⟩).2.2.2
      (by decide)⟩

/-- C10: kfont_get_fontsize always queries with count 0 and a null
buffer, so the Tier 3 read probe rejects the query without any device
call; consequently on a kernel where Tiers 1 and 2 are unsupported and
only Tier 3 works, kfont_get_fontsize returns the fallback 256. -/
theorem kfont_get_fontsize_tier3_rejected (dev : GDev) (e1 e2 : Nat)
    (h1 : dev.kdfontop 0 = IoRes.err e1) (he1 : e1 = ENOSYS ∨ e1 = EINVAL)
    (h2 : dev.giofontx 0 = IoRes.err e2) (he2 : e2 = ENOSYS ∨ e2 = EINVAL) :
    get_font_giofont dev ⟨false, 0, none, none⟩
      = (-1, ⟨false, 0, none, none⟩, [])
    ∧ kfont_get_font dev ⟨false, 0, none, none⟩
      = (-1, ⟨false, 0, none, none⟩,
          [GetCall.kdfontop 0, GetCall.giofontx 0])
    ∧ kfont_get_fontsize dev = 256 := by
  have ht3 : get_font_giofont dev ⟨false, 0, none, none⟩
      = (-1, ⟨false, 0, none, none⟩, []) := by
    simp [get_font_giofont]
  have hn1 : ¬(e1 ≠ ENOSYS ∧ e1 ≠ EINVAL) := by tauto
  have ht1 : get_font_kdfontop dev ⟨false, 0, none, none⟩
      = (1, ⟨false, 0, none, none⟩, [GetCall.kdfontop 0]) := by
    simp [get_font_kdfontop, h1, hn1]
  have hn2 : ¬(e2 ≠ ENOSYS ∧ e2 ≠ EINVAL) := by tauto
  have ht2 : get_font_giofontx dev ⟨false, 0, none, none⟩
      = (1, ⟨false, 0, none, none⟩, [GetCall.giofontx 0]) := by
    simp [get_font_giofontx, h2, hn2, USHRT_MAX]
  have hof : kfont_get_font dev ⟨false, 0, none, none⟩
      = (-1, ⟨false, 0, none, none⟩,
          [GetCall.kdfontop 0, GetCall.giofontx 0]) := by
    rw [kfont_get_font_step3 dev _ (by rw [ht1]) (by rw [ht2])]
    rw [ht1, ht2, ht3]
    simp
  refine ⟨ht3, hof, ?_⟩
  unfold kfont_get_fontsize
  rw [hof]
  simp

/-- C10 witness: Tier 1 fails ENOSYS, Tier 2 fails EINVAL, Tier 3 would
succeed; kfont_get_fontsize returns 256. -/
theorem kfont_get_fontsize_tier3_rejected_witness :
    kfont_get_fontsize gdevC10 = 256 :=
  (kfont_get_fontsize_tier3_rejected gdevC10 38 22 rfl (Or.inl rfl)
    rfl (Or.inr rfl)).2.2

/-! ## Lemmas about the write orchestrator -/

/-- put_tier23 issues PIO_FONTX with the count and height reduced mod
65536 and then possibly PIO_FONT; it never issues a Tier 1 event. -/
theorem put_tier23_trace (dev : PDev) (buf : Nat → Nat)
    (count height : Nat) (t : List PutCall) :
    ∃ rest, (put_tier23 dev buf count height t).2
        = t ++ PutCall.piofontx (count % 65536) (height % 65536) buf :: rest
      ∧ rest.all (fun ev => !isTier1Ev ev) = true := by
  unfold put_tier23
  rcases hd : dev.piofontx_set (count % 65536) (height % 65536) buf with _ | e2
  · exact ⟨[], by simp, by simp⟩
  · by_cases hc : e2 ≠ ENOSYS ∧ e2 ≠ EINVAL
    · exact ⟨[], by simp [hc], by simp⟩
    · rcases hd3 : dev.piofont_set buf with _ | e3
      · exact ⟨[PutCall.piofont buf], by simp [hc], by simp [isTier1Ev]⟩
      · exact ⟨[PutCall.piofont buf], by simp [hc], by simp [isTier1Ev]⟩

/-- Evaluation of kfont_put_font when Tier 1 fails with EINVAL at a
qualifying count and the rounded retry succeeds. -/
theorem kfont_put_font_retry_ok (dev : PDev) (buf : Nat → Nat)
    (count width0 height0 : Nat)
    (hw : (if width0 = 0 then 8 else width0) = 8)
    (hc1 : count ≠ 256) (hc2 : count < 512)
    (hm : dev.mallocOk = true)
    (h1 : dev.kdfontop_set count 8
      (if height0 = 0 then font_charheight buf count 8 else height0) buf
      = some EINVAL)
    (hret : dev.kdfontop_set (if count > 256 then 512 else 256) 8
      (if height0 = 0 then font_charheight buf count 8 else height0)
      (scratch buf count) = none) :
    kfont_put_font dev buf count width0 height0
      = (0, [PutCall.kdfontop count 8
          (if height0 = 0 then font_charheight buf count 8 else height0) buf,
        PutCall.alloc (32 * (if count > 256 then 512 else 256)),
        PutCall.kdfontop (if count > 256 then 512 else 256) 8
          (if height0 = 0 then font_charheight buf count 8 else height0)
          (scratch buf count),
        PutCall.release]) := by
  simp only [kfont_put_font, hw, h1, hm, hret]
  simp [hc1, hc2, EINVAL, ENOSYS]

/-- Evaluation of kfont_put_font when Tier 1 fails with EINVAL at a
qualifying count and the rounded retry also fails. -/
theorem kfont_put_font_retry_fail (dev : PDev) (buf : Nat → Nat)
    (count width0 height0 e2 : Nat)
    (hw : (if width0 = 0 then 8 else width0) = 8)
    (hc1 : count ≠ 256) (hc2 : count < 512)
    (hm : dev.mallocOk = true)
    (h1 : dev.kdfontop_set count 8
      (if height0 = 0 then font_charheight buf count 8 else height0) buf
      = some EINVAL)
    (hret : dev.kdfontop_set (if count > 256 then 512 else 256) 8
      (if height0 = 0 then font_charheight buf count 8 else height0)
      (scratch buf count) = some e2) :
    kfont_put_font dev buf count width0 height0
      = put_tier23 dev buf count
          (if height0 = 0 then font_charheight buf count 8 else height0)
          [PutCall.kdfontop count 8
            (if height0 = 0 then font_charheight buf count 8 else height0) buf,
          PutCall.alloc (32 * (if count > 256 then 512 else 256)),
          PutCall.kdfontop (if count > 256 then 512 else 256) 8
            (if height0 = 0 then font_charheight buf count 8 else height0)
            (scratch buf count),
          PutCall.release] := by
  simp only [kfont_put_font, hw, h1, hm, hret]
  simp [hc1, hc2, EINVAL, ENOSYS]

/-- Evaluation of kfont_put_font when Tier 1 fails as NotSupported with
resolved width 8 but the count-rounding retry does not apply. -/
theorem kfont_put_font_no_retry (dev : PDev) (buf : Nat → Nat)
    (count width0 height0 e : Nat)
    (hw : (if width0 = 0 then 8 else width0) = 8)
    (he : e = ENOSYS ∨ e = EINVAL)
    (h1 : dev.kdfontop_set count 8
      (if height0 = 0 then font_charheight buf count 8 else height0) buf
      = some e)
    (hskip : ¬(e = EINVAL ∧ count ≠ 256 ∧ count < 512)) :
    kfont_put_font dev buf count width0 height0
      = put_tier23 dev buf count
          (if height0 = 0 then font_charheight buf count 8 else height0)
          [PutCall.kdfontop count 8
            (if height0 = 0 then font_charheight buf count 8 else height0)
            buf] := by
  have hne : ¬(e ≠ ENOSYS ∧ e ≠ EINVAL) := by tauto
  simp only [kfont_put_font, hw, h1]
  rw [if_neg (by simpa using fun h => hne h)]
  rw [if_neg (by tauto)]

/-- C1 counterexample: Tier 1 fails as NotSupported with errno ENOSYS,
width is 8, count is 100 (not 256, below 512), yet kfont_put_font
performs no rounding retry: no scratch allocation and no second KDFONTOP
call appear; it falls through to PIO_FONTX directly.  The retry is
triggered by errno EINVAL only. -/
theorem put_retry_cex :
    pdevC1.kdfontop_set 100 8 1 buf0 = some ENOSYS
    ∧ (ENOSYS = ENOSYS ∨ ENOSYS = EINVAL)
    ∧ kfont_put_font pdevC1 buf0 100 8 1
        = (0, [PutCall.kdfontop 100 8 1 buf0, PutCall.piofontx 100 1 buf0])
    ∧ PutCall.alloc (32 * 256) ∉ (kfont_put_font pdevC1 buf0 100 8 1).2 := by
  have h : kfont_put_font pdevC1 buf0 100 8 1
      = (0, [PutCall.kdfontop 100 8 1 buf0,
             PutCall.piofontx 100 1 buf0]) := rfl
  refine ⟨rfl, Or.inl rfl, h, ?_⟩
  rw [h]
  simp

/-- C1 amended: when Tier 1 reports failure with errno EINVAL
specifically (an ENOSYS NotSupported failure skips this step), the
resolved width is 8, count is not 256 and count is below 512, and the
allocation succeeds, kfont_put_font retries Tier 1 exactly once with
count rounded up to 256 (count below 256) or 512 (count between 257 and
511), passing a scratch buffer whose first 32 * count bytes equal the
original buffer and whose remaining bytes are zero; the scratch buffer is
released right after the retry whether it succeeds or fails, and no
further Tier 1 event occurs. -/
theorem put_retry_rounding (dev : PDev) (buf : Nat → Nat)
    (count width0 height0 : Nat)
    (hw : width0 = 8 ∨ width0 = 0)
    (hc1 : count ≠ 256) (hc2 : count < 512)
    (hm : dev.mallocOk = true)
    (h1 : dev.kdfontop_set count 8
      (if height0 = 0 then font_charheight buf count 8 else height0) buf
      = some EINVAL) :
    (∀ n, n < 32 * count → scratch buf count n = buf n)
    ∧ (∀ n, 32 * count ≤ n → scratch buf count n = 0)
    ∧ ∃ tail,
        (kfont_put_font dev buf count width0 height0).2
          = PutCall.kdfontop count 8
              (if height0 = 0 then font_charheight buf count 8 else height0)
              buf
            :: PutCall.alloc (32 * (if count > 256 then 512 else 256))
            :: PutCall.kdfontop (if count > 256 then 512 else 256) 8
              (if height0 = 0 then font_charheight buf count 8 else height0)
              (scratch buf count)
            :: PutCall.release :: tail
        ∧ tail.all (fun ev => !isTier1Ev ev) = true
        ∧ (dev.kdfontop_set (if count > 256 then 512 else 256) 8
            (if height0 = 0 then font_charheight buf count 8 else height0)
            (scratch buf count) = none →
          tail = []
          ∧ (kfont_put_font dev buf count width0 height0).1 = 0) := by
  have hwres : (if width0 = 0 then 8 else width0) = 8 := by
    rcases hw with h | h <;> simp [h]
  refine ⟨fun n hn => by simp [scratch, hn],
    fun n hn => by unfold scratch; rw [if_neg (by omega)], ?_⟩
  rcases hret : dev.kdfontop_set (if count > 256 then 512 else 256) 8
      (if height0 = 0 then font_charheight buf count 8 else height0)
      (scratch buf count) with _ | e2
  · have hp := kfont_put_font_retry_ok dev buf count width0 height0
      hwres hc1 hc2 hm h1 hret
    refine ⟨[], by rw [hp], by simp, fun _ => ⟨rfl, by rw [hp]⟩⟩
  · have hp := kfont_put_font_retry_fail dev buf count width0 height0 e2
      hwres hc1 hc2 hm h1 hret
    obtain ⟨rest, htr, hall⟩ := put_tier23_trace dev buf count
      (if height0 = 0 then font_charheight buf count 8 else height0)
      [PutCall.kdfontop count 8
        (if height0 = 0 then font_charheight buf count 8 else height0) buf,
      PutCall.alloc (32 * (if count > 256 then 512 else 256)),
      PutCall.kdfontop (if count > 256 then 512 else 256) 8
        (if height0 = 0 then font_charheight buf count 8 else height0)
        (scratch buf count),
      PutCall.release]
    refine ⟨PutCall.piofontx (count % 65536)
        ((if height0 = 0 then font_charheight buf count 8 else height0)
          % 65536) buf :: rest, ?_, ?_, ?_⟩
    · rw [hp, htr]
      simp
    · simp only [List.all_cons, hall, Bool.and_true]
      simp [isTier1Ev]
    · intro habs
      exact absurd habs (by simp)

/-- C1 amended witness: count 100, width 8, height 5, Tier 1 failing
EINVAL at count 100 and succeeding at the rounded count 256. -/
theorem put_retry_rounding_witness :
    pdevC1w.kdfontop_set 100 8 5 buf7 = some EINVAL
    ∧ (100:Nat) ≠ 256 ∧ (100:Nat) < 512 ∧ pdevC1w.mallocOk = true
    ∧ ((∀ n, n < 32 * 100 → scratch buf7 100 n = buf7 n)
      ∧ (∀ n, 32 * 100 ≤ n → scratch buf7 100 n = 0)
      ∧ ∃ tail,
          (kfont_put_font pdevC1w buf7 100 8 5).2
            = PutCall.kdfontop 100 8 5 buf7
              :: PutCall.alloc (32 * 256)
              :: PutCall.kdfontop 256 8 5 (scratch buf7 100)
              :: PutCall.release :: tail
          ∧ tail.all (fun ev => !isTier1Ev ev) = true
          ∧ (pdevC1w.kdfontop_set 256 8 5 (scratch buf7 100) = none →
            tail = [] ∧ (kfont_put_font pdevC1w buf7 100 8 5).1 = 0)) :=
  ⟨rfl, by decide, by decide, rfl,
    put_retry_rounding pdevC1w buf7 100 8 5 (Or.inl rfl)
      (by decide) (by decide) rfl rfl⟩

/-- C6 counterexample: in the write direction, a request with count
65536 (above the 16-bit ceiling) is not rejected: after Tier 1 fails,
PIO_FONTX is issued with the truncated count 0 and the call reports
success, refuting the claim for the write direction. -/
theorem tier2_ceiling_cex :
    (65536 > USHRT_MAX)
    ∧ kfont_put_font pdevC6 buf0 65536 8 1
        = (0, [PutCall.kdfontop 65536 8 1 buf0,
               PutCall.piofontx 0 1 buf0]) :=
  ⟨by decide, rfl⟩

/-- C6 amended: in the read direction Tier 2 fails fast with a hard
error and no device call whenever the requested count exceeds USHRT_MAX;
in the write direction there is no ceiling check: after a NotSupported
Tier 1 failure the PIO_FONTX call is issued with the count reduced mod
65536 (the unsigned short struct field). -/
theorem tier2_ceiling (gdev : GDev) (a : GetArgs) (dev : PDev)
    (buf : Nat → Nat) (count width0 height0 e : Nat)
    (ha : a.count > USHRT_MAX)
    (hcw : count > USHRT_MAX)
    (hw : width0 = 8 ∨ width0 = 0)
    (he : e = ENOSYS ∨ e = EINVAL)
    (h1 : dev.kdfontop_set count 8
      (if height0 = 0 then font_charheight buf count 8 else height0) buf
      = some e) :
    get_font_giofontx gdev a = (-1, a, [])
    ∧ ∃ tail,
        (kfont_put_font dev buf count width0 height0).2
          = PutCall.kdfontop count 8
              (if height0 = 0 then font_charheight buf count 8 else height0)
              buf
            :: PutCall.piofontx (count % 65536)
              ((if height0 = 0 then font_charheight buf count 8 else height0)
                % 65536) buf
            :: tail := by
  have hwres : (if width0 = 0 then 8 else width0) = 8 := by
    rcases hw with h | h <;> simp [h]
  constructor
  · unfold get_font_giofontx
    rw [if_pos ha]
  · have hskip : ¬(e = EINVAL ∧ count ≠ 256 ∧ count < 512) := by
      unfold USHRT_MAX at hcw
      intro hk
      omega
    have hp := kfont_put_font_no_retry dev buf count width0 height0 e
      hwres he h1 hskip
    obtain ⟨rest, htr, _⟩ := put_tier23_trace dev buf count
      (if height0 = 0 then font_charheight buf count 8 else height0)
      [PutCall.kdfontop count 8
        (if height0 = 0 then font_charheight buf count 8 else height0) buf]
    exact ⟨rest, by rw [hp, htr]; simp⟩

/-- C6 amended witness: read query with count 70000 rejected locally;
write with count 65536 reaches PIO_FONTX carrying count 0. -/
theorem tier2_ceiling_witness :
    get_font_giofontx gdevC5 ⟨false, 70000, none, none⟩
      = (-1, ⟨false, 70000, none, none⟩, [])
    ∧ ∃ tail,
        (kfont_put_font pdevC6 buf0 65536 8 1).2
          = PutCall.kdfontop 65536 8 1 buf0
            :: PutCall.piofontx 0 1 buf0 :: tail :=
  tier2_ceiling gdevC5 ⟨false, 70000, none, none⟩ pdevC6 buf0 65536 8 1 38
    (by decide) (by decide) (Or.inl rfl) (Or.inl rfl) rfl

/-- C8: when the resolved width differs from 8 and Tier 1 fails with any
errno, kfont_put_font returns -1 immediately, having issued only the one
KDFONTOP call: no rounding retry, no PIO_FONTX, no PIO_FONT. -/
theorem put_nondefault_width_terminal (dev : PDev) (buf : Nat → Nat)
    (count width0 height0 e : Nat)
    (hw0 : width0 ≠ 0) (hw8 : width0 ≠ 8)
    (h1 : dev.kdfontop_set count width0
      (if height0 = 0 then font_charheight buf count width0 else height0)
      buf = some e) :
    kfont_put_font dev buf count width0 height0
      = (-1, [PutCall.kdfontop count width0
          (if height0 = 0 then font_charheight buf count width0 else height0)
          buf]) := by
  simp only [kfont_put_font, if_neg hw0, h1]
  rw [if_pos (Or.inl hw8)]

/-- C8 witness: width 16, Tier 1 failing with errno 13; the call returns
-1 after the single KDFONTOP attempt. -/
theorem put_nondefault_width_terminal_witness :
    kfont_put_font pdevC8 buf0 10 16 7
      = (-1, [PutCall.kdfontop 10 16 7 buf0]) :=
  put_nondefault_width_terminal pdevC8 buf0 10 16 7 13
    (by decide) (by decide) rfl

end Kfont
